import Mathlib

/-
Verification development for the pyschism Makefile driver
(`pyschism/driver/makefile.py`).

The module is embedded shallowly:
* generated text is modelled as `List Char`;
* Python `str.replace("    ", "\t")` is `tabRepl`;
* Python `"\n".join` is `joinNL`;
* the template blocks are transcribed verbatim from the source
  (braces are written with `\x7b`/`\x7d` escapes, apostrophes with `\x27`);
* `Makefile.write` is modelled over an explicit file-system state;
* the `MakefileDriver.__new__` dispatch is modelled over a small type of
  Python argument values, with `Except` as the effect type of a Python
  callable (raise vs return).
-/

/-- A Python value passed as the `server_config` argument of
`MakefileDriver.__new__`.  The renderers only ever consult `str(value)`,
so each constructor carries just that textual rendering.  `slurmConfig`
stands for instances of `SlurmConfig`, `serverConfig` for (non-Slurm)
`ServerConfig` instances, and `otherValue` for any other Python object
(the call is not type-checked at runtime). -/
inductive PyConfig
  | serverConfig (rendered : String)
  | slurmConfig (rendered : String)
  | otherValue (rendered : String)
deriving DecidableEq

/-- Embedding of `isinstance(server_config, SlurmConfig)` (source line 159). -/
def isinstance_SlurmConfig : PyConfig → Bool
  | .slurmConfig _ => true
  | _ => false

/-- The concrete class of the object produced by `MakefileDriver.__new__`. -/
inductive MakefileClass
  | defaultMakefile
  | slurmMakefile
deriving DecidableEq

/-- Embedding of `MakefileDriver.__new__` (source lines 158-163).  The `Except` layer is
the effect type of a Python callable: `.error` would be a raised exception.
The source contains no `raise`, so every branch returns `.ok`. -/
def MakefileDriver_new (c : PyConfig) : Except String MakefileClass :=
  if isinstance_SlurmConfig c then Except.ok MakefileClass.slurmMakefile
  else Except.ok MakefileClass.defaultMakefile

/-- Left-to-right, non-overlapping replacement of every four-space run by a
single tab: Python `s.replace("    ", "\t")` for this fixed pattern
(source lines 64 and 98). -/
def tabRepl : List Char → List Char
  | ' ' :: ' ' :: ' ' :: ' ' :: rest => '\t' :: tabRepl rest
  | c :: rest => c :: tabRepl rest
  | [] => []

/-- Python `"\n".join` (source lines 64 and 98). -/
def joinNL : List (List Char) → List Char
  | [] => []
  | [x] => x
  | x :: xs => x ++ '\n' :: joinNL xs

/-- Header line 1 of both renderers (source line 55 / 89). -/
def headerLine1 : List Char := "# Makefile driver generated by PySCHISM.".data

/-- Header line 2 of both renderers (source line 56 / 90). -/
def headerLine2 : List Char :=
  "MAKEFILE_PATH:=$(abspath $(lastword $(MAKEFILE_LIST)))".data

/-- Header line 3 of both renderers (source line 57 / 91). -/
def headerLine3 : List Char := "ROOT_DIR:=$(dir $(MAKEFILE_PATH))".data

/-- Embedding of `Makefile.tail` (source lines 29-33). -/
def Makefile_tail : List Char :=
  "\ntail:\n    tail -f outputs/mirror.out  outputs/fatal.error\n".data

/-- Embedding of `Makefile.symlinks` (source lines 36-47). -/
def Makefile_symlinks : List Char :=
  "\nsymlinks:\n    @set -e;\\\n    if [ ! -z $$\x7bSYMLINK_OUTPUTS_DIR\x7d ];\\\n    then \\\n        ln -sf $$\x7bSYMLINK_OUTPUTS_DIR\x7d $$\x7bROOT_DIR\x7doutputs;\\\n    else \\\n        mkdir -p $$\x7bROOT_DIR\x7doutputs;\\\n    fi;\\\n    touch outputs/mirror.out outputs/fatal.error\n".data

/-- Embedding of `DefaultMakefile.default` (source lines 66-70). -/
def DefaultMakefile_default : List Char := "\ndefault: symlinks\n".data

/-- Embedding of `DefaultMakefile.run` (source lines 72-81). -/
def DefaultMakefile_run : List Char :=
  "\nrun: default\n    @set -e;\\\n    eval \x27tail -f outputs/mirror.out  outputs/fatal.error &\x27;\\\n    tail_pid=$$\x7b!\x7d;\\\n    $\x7bMPI_LAUNCHER\x7d $\x7bNPROC\x7d $\x7bSCHISM_BINARY\x7d;\\\n    kill \"$$\x7btail_pid\x7d\"\n".data

/-- Embedding of `SlurmMakefile.default` (source lines 100-104). -/
def SlurmMakefile_default : List Char := "\ndefault: slurm\n".data

/-- Embedding of `SlurmMakefile.slurm` (source lines 106-134). -/
def SlurmMakefile_slurm : List Char :=
  "\nslurm: symlinks\n    @set -e;\\\n    printf \"#!/bin/bash --login\\n\" > $\x7bSLURM_JOB_FILE\x7d;\\\n    printf \"#SBATCH -D .\\n\" >> $\x7bSLURM_JOB_FILE\x7d;\\\n    if [ ! -z \"$\x7bSLURM_ACCOUNT\x7d\" ];\\\n    then \\\n        printf \"#SBATCH -A $\x7bSLURM_ACCOUNT\x7d\\n\" >> $\x7bSLURM_JOB_FILE\x7d;\\\n    fi;\\\n    if [ ! -z \"$\x7bSLURM_MAIL_USER\x7d\" ];\\\n    then \\\n        printf \"#SBATCH --mail-user=$\x7bSLURM_MAIL_USER\x7d\\n\" >> $\x7bSLURM_JOB_FILE\x7d;\\\n        printf \"#SBATCH --mail-type=$\x7bSLURM_MAIL_TYPE:-all\x7d\\n\" >> $\x7bSLURM_JOB_FILE\x7d;\\\n    fi;\\\n    printf \"#SBATCH --output=$\x7bSLURM_LOG_FILE\x7d\\n\" >> $\x7bSLURM_JOB_FILE\x7d;\\\n    printf \"#SBATCH -n $\x7bSLURM_NTASKS\x7d\\n\" >> $\x7bSLURM_JOB_FILE\x7d;\\\n    if [ ! -z \"$\x7bSLURM_WALLTIME\x7d\" ];\\\n    then \\\n        printf \"#SBATCH --time=$\x7bSLURM_WALLTIME\x7d\\n\" >> $\x7bSLURM_JOB_FILE\x7d;\\\n    fi;\\\n    if [ ! -z \"$\x7bSLURM_PARTITION\x7d\" ] ;\\\n    then \\\n        printf \"#SBATCH --partition=$\x7bSLURM_PARTITION\x7d\\n\" >> $\x7bSLURM_JOB_FILE\x7d;\\\n    fi;\\\n    printf \"\\nset -e\\n\" >> $\x7bSLURM_JOB_FILE\x7d;\\\n    printf \"$\x7bMPI_LAUNCHER\x7d $\x7bSCHISM_BINARY\x7d\" >> $\x7bSLURM_JOB_FILE\x7d\n".data

/-- Embedding of `SlurmMakefile.run` (source lines 136-155). -/
def SlurmMakefile_run : List Char :=
  "\nrun: $(if ! $(\"$(wildcard $(SLURM_JOB_FILE))\",\"\"), slurm)\n    @set -e;\\\n    touch $\x7bSLURM_LOG_FILE\x7d;\\\n    eval \x27tail -f $\x7bSLURM_LOG_FILE\x7d outputs/mirror.out outputs/fatal.error &\x27;\\\n    tail_pid=$$\x7b!\x7d;\\\n    job_id=$$(sbatch $\x7bSLURM_JOB_FILE\x7d);\\\n    printf \"$$\x7bjob_id\x7d\\n\";\\\n    job_id=$$(echo $$\x7bjob_id\x7d | awk \x27\x7bprint $$NF\x7d\x27);\\\n    ctrl_c() \x7b \\\n        scancel \"$$\x7bjob_id\x7d\";\\\n    \x7d;\\\n    while [ $$(squeue -j $$\x7bjob_id\x7d | wc -l) -eq 2 ];\\\n    do \\\n        trap ctrl_c SIGINT;\\\n    done;\\\n    kill \"$$\x7btail_pid\x7d\"\n".data

/-- The list `f` assembled by `DefaultMakefile.__str__` (source lines 54-62);
`cfg` is `str(self.server_config)`. -/
def DefaultMakefile_sections (cfg : List Char) : List (List Char) :=
  [headerLine1, headerLine2, headerLine3, cfg, DefaultMakefile_default,
   Makefile_symlinks, DefaultMakefile_run, Makefile_tail]

/-- Embedding of `DefaultMakefile.__str__` (source lines 53-64). -/
def DefaultMakefile_str (cfg : List Char) : List Char :=
  joinNL (List.map tabRepl (DefaultMakefile_sections cfg))

/-- The list `f` assembled by `SlurmMakefile.__str__` (source lines 87-97);
`cfg` is `str(self.server_config)`. -/
def SlurmMakefile_sections (cfg : List Char) : List (List Char) :=
  [headerLine1, headerLine2, headerLine3, cfg, SlurmMakefile_default,
   Makefile_symlinks, SlurmMakefile_slurm, SlurmMakefile_run, Makefile_tail]

/-- Embedding of `SlurmMakefile.__str__` (source lines 86-98). -/
def SlurmMakefile_str (cfg : List Char) : List Char :=
  joinNL (List.map tabRepl (SlurmMakefile_sections cfg))

/-- Rendering `str(makefile)` for either concrete class, as a `String`. -/
def Makefile_render : MakefileClass → String → String
  | MakefileClass.defaultMakefile, cfg => String.mk (DefaultMakefile_str cfg.data)
  | MakefileClass.slurmMakefile, cfg => String.mk (SlurmMakefile_str cfg.data)

/-- The file-system state seen by `Makefile.write`: each path maps to the
contents of the file stored there, if any. -/
def FileSystem : Type := String → Option String

/-- Embedding of `pathlib.Path.exists` (source line 18). -/
def Path_exists (fs : FileSystem) (p : String) : Bool := (fs p).isSome

/-- A Python value passed as the `overwrite` argument of `Makefile.write`
(the parameter is annotated `bool` but the annotation is not enforced). -/
inductive PyVal
  | pyBool (b : Bool)
  | pyInt (n : Int)
  | pyStr (s : String)
deriving DecidableEq

/-- Python `overwrite is True`: identity with the singleton `True` object,
so only the literal boolean `True` qualifies (source line 18 tests
`overwrite is not True`). -/
def py_is_True : PyVal → Bool
  | .pyBool true => true
  | _ => false

/-- Embedding of `Makefile.write` (source lines 16-22): returns the file system after the
call together with the raised `IOError` message, if any.  The existence
check precedes the `open(path, 'w')`, so on the error path the state is
returned untouched. -/
def Makefile_write (fs : FileSystem) (path : String) (content : String)
    (overwrite : PyVal) : FileSystem × Option String :=
  if Path_exists fs path && !(py_is_True overwrite) then
    (fs, some ("File " ++ path ++ " exists and overwrite is not True."))
  else
    ((fun p => if p = path then some content else fs p), none)

example : MakefileDriver_new (PyConfig.slurmConfig "x") =
    Except.ok MakefileClass.slurmMakefile := rfl

example : tabRepl ("a    b".data) = "a\tb".data := by decide

example : tabRepl ("        x".data) = "\t\tx".data := by decide

example : joinNL ["a".data, "b".data] = "a\nb".data := by decide

theorem tabRepl_four (r : List Char) :
    tabRepl (' ' :: ' ' :: ' ' :: ' ' :: r) = '\t' :: tabRepl r := rfl

theorem tabRepl_cons (c : Char) (r : List Char)
    (h : ∀ r2, c :: r ≠ ' ' :: ' ' :: ' ' :: ' ' :: r2) :
    tabRepl (c :: r) = c :: tabRepl r := by
  rw [tabRepl.eq_def]
  split
  · rename_i r2 heq
    exact absurd heq (h r2)
  · rename_i c2 r2 hne heq
    injection heq with h1 h2
    subst h1; subst h2; rfl
  · rename_i x heq
    simp at heq

theorem tabRepl_append_newline (s1 s2 : List Char) :
    tabRepl (s1 ++ '\n' :: s2) = tabRepl s1 ++ '\n' :: tabRepl s2 := by
  induction s1 using tabRepl.induct with
  | case1 r ih =>
    simp only [List.cons_append, tabRepl_four, ih]
  | case2 c r h ih =>
    have hg1 : ∀ r2, c :: r ≠ ' ' :: ' ' :: ' ' :: ' ' :: r2 := by
      intro r2 heq
      injection heq with h1 h2
      exact h r2 h1 h2
    have hg2 : ∀ r2, c :: (r ++ '\n' :: s2) ≠ ' ' :: ' ' :: ' ' :: ' ' :: r2 := by
      intro r2 heq
      injection heq with h1 h2
      rcases r with _ | ⟨a, r⟩
      · simp only [List.nil_append, List.cons.injEq] at h2
        exact absurd h2.1 (by decide)
      · rcases r with _ | ⟨b, r⟩
        · simp only [List.cons_append, List.nil_append, List.cons.injEq] at h2
          exact absurd h2.2.1 (by decide)
        · rcases r with _ | ⟨d, r⟩
          · simp only [List.cons_append, List.nil_append, List.cons.injEq] at h2
            exact absurd h2.2.2.1 (by decide)
          · simp only [List.cons_append, List.cons.injEq] at h2
            exact h r h1 (by rw [h2.1, h2.2.1, h2.2.2.1])
    rw [List.cons_append, tabRepl_cons c (r ++ '\n' :: s2) hg2,
        tabRepl_cons c r hg1, ih, List.cons_append]
  | case3 => simp [tabRepl]

theorem joinNL_map_tabRepl (bs : List (List Char)) :
    joinNL (List.map tabRepl bs) = tabRepl (joinNL bs) := by
  induction bs with
  | nil => rfl
  | cons b bs ih =>
    rcases bs with _ | ⟨b2, bs⟩
    · rfl
    · simp only [List.map, joinNL, tabRepl_append_newline]
      rw [show tabRepl b2 :: List.map tabRepl bs = List.map tabRepl (b2 :: bs) from rfl, ih]

theorem DefaultMakefile_str_decomp (cfg : List Char) :
    DefaultMakefile_str cfg =
      tabRepl headerLine1 ++ '\n' :: (tabRepl headerLine2 ++ '\n' ::
        (tabRepl headerLine3 ++ '\n' :: (tabRepl cfg ++ '\n' ::
          (tabRepl DefaultMakefile_default ++ '\n' :: (tabRepl Makefile_symlinks ++ '\n' ::
            (tabRepl DefaultMakefile_run ++ '\n' :: tabRepl Makefile_tail)))))) := rfl

theorem SlurmMakefile_str_decomp (cfg : List Char) :
    SlurmMakefile_str cfg =
      tabRepl headerLine1 ++ '\n' :: (tabRepl headerLine2 ++ '\n' ::
        (tabRepl headerLine3 ++ '\n' :: (tabRepl cfg ++ '\n' ::
          (tabRepl SlurmMakefile_default ++ '\n' :: (tabRepl Makefile_symlinks ++ '\n' ::
            (tabRepl SlurmMakefile_slurm ++ '\n' :: (tabRepl SlurmMakefile_run ++ '\n' ::
              tabRepl Makefile_tail))))))) := rfl

/-- The empty file system: no path holds a file. -/
def emptyFS : FileSystem := fun _ => none

/-- A file system holding one file, at path `Makefile`. -/
def fsWithMakefile : FileSystem :=
  fun p => if p = "Makefile" then some "old contents" else none

/-- C1: for a configuration whose concrete kind is `SlurmConfig`,
`MakefileDriver.__new__` selects the batch renderer `SlurmMakefile`; for the
other recognized kind, `ServerConfig`, it selects `DefaultMakefile`. -/
theorem C1_driver_selects_by_kind (s : String) :
    MakefileDriver_new (PyConfig.slurmConfig s) = Except.ok MakefileClass.slurmMakefile ∧
    MakefileDriver_new (PyConfig.serverConfig s) = Except.ok MakefileClass.defaultMakefile :=
  ⟨rfl, rfl⟩

/-- C2: writing to an existing path with `overwrite=False` raises the
destination-exists `IOError` and leaves the file system unchanged (the check
precedes any write). -/
theorem C2_write_existing_refused (fs : FileSystem) (path content : String)
    (h : Path_exists fs path = true) :
    (Makefile_write fs path content (PyVal.pyBool false)).2 =
        some ("File " ++ path ++ " exists and overwrite is not True.") ∧
    (Makefile_write fs path content (PyVal.pyBool false)).1 = fs := by
  simp [Makefile_write, h, py_is_True]

/-- C2 witness at a concrete file system and path. -/
theorem C2_write_existing_refused_witness :
    Path_exists fsWithMakefile "Makefile" = true ∧
    (Makefile_write fsWithMakefile "Makefile" "new" (PyVal.pyBool false)).2 =
        some ("File " ++ "Makefile" ++ " exists and overwrite is not True.") ∧
    (Makefile_write fsWithMakefile "Makefile" "new" (PyVal.pyBool false)).1 = fsWithMakefile :=
  ⟨rfl, (C2_write_existing_refused fsWithMakefile "Makefile" "new" rfl).1,
    (C2_write_existing_refused fsWithMakefile "Makefile" "new" rfl).2⟩

/-- C3: writing to a fresh path succeeds and stores exactly the renderer's
string output; writing to an existing path with `overwrite=True` succeeds and
replaces the contents with that same string. -/
theorem C3_write_success (fs : FileSystem) (path cfg : String) (k : MakefileClass)
    (ov : PyVal) :
    (Path_exists fs path = false →
       (Makefile_write fs path (Makefile_render k cfg) ov).2 = none ∧
       (Makefile_write fs path (Makefile_render k cfg) ov).1 path =
          some (Makefile_render k cfg)) ∧
    (Path_exists fs path = true →
       (Makefile_write fs path (Makefile_render k cfg) (PyVal.pyBool true)).2 = none ∧
       (Makefile_write fs path (Makefile_render k cfg) (PyVal.pyBool true)).1 path =
          some (Makefile_render k cfg)) := by
  constructor
  · intro h
    simp [Makefile_write, h]
  · intro h
    simp [Makefile_write, h, py_is_True]

/-- C3 witness: a fresh write into the empty file system and an overwrite of
an existing file, both at concrete inputs. -/
theorem C3_write_success_witness :
    Path_exists emptyFS "Makefile" = false ∧
    ((Makefile_write emptyFS "Makefile"
        (Makefile_render MakefileClass.defaultMakefile "NPROC:=4") (PyVal.pyBool false)).2 = none ∧
     (Makefile_write emptyFS "Makefile"
        (Makefile_render MakefileClass.defaultMakefile "NPROC:=4") (PyVal.pyBool false)).1 "Makefile" =
        some (Makefile_render MakefileClass.defaultMakefile "NPROC:=4")) ∧
    Path_exists fsWithMakefile "Makefile" = true ∧
    ((Makefile_write fsWithMakefile "Makefile"
        (Makefile_render MakefileClass.slurmMakefile "SLURM_NTASKS:=16") (PyVal.pyBool true)).2 = none ∧
     (Makefile_write fsWithMakefile "Makefile"
        (Makefile_render MakefileClass.slurmMakefile "SLURM_NTASKS:=16") (PyVal.pyBool true)).1 "Makefile" =
        some (Makefile_render MakefileClass.slurmMakefile "SLURM_NTASKS:=16")) :=
  ⟨rfl,
   (C3_write_success emptyFS "Makefile" "NPROC:=4" MakefileClass.defaultMakefile
      (PyVal.pyBool false)).1 rfl,
   rfl,
   (C3_write_success fsWithMakefile "Makefile" "SLURM_NTASKS:=16" MakefileClass.slurmMakefile
      (PyVal.pyBool false)).2 rfl⟩

/-- C5 counterexample: at the concrete unrecognized configuration value
`otherValue "42"` (not a `ServerConfig` at all), `MakefileDriver.__new__`
returns a `DefaultMakefile` instead of raising: a silent fallback to one of
the two renderers, not a loud failure at call time. -/
theorem C5_counterexample :
    MakefileDriver_new (PyConfig.otherValue "42") =
      Except.ok MakefileClass.defaultMakefile := rfl

/-- C5 amended: construction never fails; every configuration value that is
not a `SlurmConfig` instance — recognized or not — silently selects the
default renderer. -/
theorem C5_amended (c : PyConfig) :
    (∀ e, MakefileDriver_new c ≠ Except.error e) ∧
    (isinstance_SlurmConfig c = false →
      MakefileDriver_new c = Except.ok MakefileClass.defaultMakefile) := by
  constructor
  · intro e h
    unfold MakefileDriver_new at h
    split at h <;> exact Except.noConfusion h
  · intro h
    simp [MakefileDriver_new, h]

/-- C5 amended, witness at a concrete unrecognized value. -/
theorem C5_amended_witness :
    MakefileDriver_new (PyConfig.otherValue "not a config") ≠ Except.error "TypeError" ∧
    MakefileDriver_new (PyConfig.otherValue "not a config") =
      Except.ok MakefileClass.defaultMakefile :=
  ⟨(C5_amended (PyConfig.otherValue "not a config")).1 "TypeError",
   (C5_amended (PyConfig.otherValue "not a config")).2 rfl⟩

/-- Rendering `str(server_config)` for each possible argument value. -/
def PyConfig_rendered : PyConfig → String
  | .serverConfig s => s
  | .slurmConfig s => s
  | .otherValue s => s

/-- The generated script for a configuration value: the renderer selected by
`MakefileDriver.__new__` applied to the configuration's textual rendering
(`none` would be a raised construction error, which never occurs). -/
def scriptOf (c : PyConfig) : Option String :=
  (MakefileDriver_new c).toOption.map (fun k => Makefile_render k (PyConfig_rendered c))

/-- C9: the generated script is fully determined by the selected variant and
the textual rendering of the configuration: two configuration values on which
the dispatch agrees and whose renderings are equal yield identical scripts. -/
theorem C9_script_deterministic (c1 c2 : PyConfig)
    (hk : isinstance_SlurmConfig c1 = isinstance_SlurmConfig c2)
    (hr : PyConfig_rendered c1 = PyConfig_rendered c2) :
    scriptOf c1 = scriptOf c2 := by
  simp only [scriptOf, MakefileDriver_new, hk, hr]

/-- C9 witness: two distinct configuration values with equal renderings and
agreeing dispatch produce the same script. -/
theorem C9_script_deterministic_witness :
    scriptOf (PyConfig.serverConfig "NPROC:=4") = scriptOf (PyConfig.otherValue "NPROC:=4") :=
  C9_script_deterministic (PyConfig.serverConfig "NPROC:=4") (PyConfig.otherValue "NPROC:=4")
    rfl rfl

/-- C10: when the destination exists, any `overwrite` argument other than the
literal boolean `True` — including truthy values such as the integer `1` —
still raises the destination-exists error and leaves the state unchanged;
the literal `True` is the only value that permits replacement. -/
theorem C10_only_literal_True_overwrites (fs : FileSystem) (path content : String)
    (ov : PyVal) (hex : Path_exists fs path = true) (hov : ov ≠ PyVal.pyBool true) :
    (Makefile_write fs path content ov).2 =
        some ("File " ++ path ++ " exists and overwrite is not True.") ∧
    (Makefile_write fs path content ov).1 = fs ∧
    (Makefile_write fs path content (PyVal.pyBool true)).2 = none := by
  have hT : py_is_True ov = false := by
    cases ov with
    | pyBool b =>
      cases b with
      | true => exact absurd rfl hov
      | false => rfl
    | pyInt n => rfl
    | pyStr s => rfl
  refine ⟨?_, ?_, ?_⟩ <;> simp [Makefile_write, hex, hT, py_is_True]

/-- C10 witness: the truthy integer `1` still triggers the error. -/
theorem C10_only_literal_True_overwrites_witness :
    (Makefile_write fsWithMakefile "Makefile" "new" (PyVal.pyInt 1)).2 =
        some ("File " ++ "Makefile" ++ " exists and overwrite is not True.") ∧
    (Makefile_write fsWithMakefile "Makefile" "new" (PyVal.pyInt 1)).1 = fsWithMakefile ∧
    (Makefile_write fsWithMakefile "Makefile" "new" (PyVal.pyBool true)).2 = none :=
  C10_only_literal_True_overwrites fsWithMakefile "Makefile" "new" (PyVal.pyInt 1) rfl
    (by decide)

/-- Boolean test that `pat` is a prefix of the second list. -/
def listStartsWith : List Char → List Char → Bool
  | [], _ => true
  | _ :: _, [] => false
  | p :: ps, c :: cs => p == c && listStartsWith ps cs

/-- Boolean test that `pat` occurs as a contiguous segment of the second list. -/
def hasSegment (pat : List Char) : List Char → Bool
  | [] => listStartsWith pat []
  | c :: rest => listStartsWith pat (c :: rest) || hasSegment pat rest

theorem ne_space_guard (c : Char) (r : List Char) (h : c ≠ ' ') :
    ∀ r2, c :: r ≠ ' ' :: ' ' :: ' ' :: ' ' :: r2 := by
  intro r2 heq
  injection heq with h1 _
  exact h h1

set_option maxRecDepth 40000 in
/-- C4 counterexample: with a configuration rendering whose line holds an
interior four-space run (`SCHISM_BINARY:=/opt/a    b`), the emitted output
contains the tab-converted form and no longer contains the original text:
text other than leading indentation is affected by the conversion. -/
theorem C4_counterexample :
    hasSegment ("SCHISM_BINARY:=/opt/a\tb".data)
        (DefaultMakefile_str ("SCHISM_BINARY:=/opt/a    b".data)) = true ∧
    hasSegment ("SCHISM_BINARY:=/opt/a    b".data)
        (DefaultMakefile_str ("SCHISM_BINARY:=/opt/a    b".data)) = false := by
  constructor <;> decide

/-- C4 amended: each renderer emits exactly the joined template text with
every four-space run replaced, leftmost first, by a single tab — so a line
indented with exactly four spaces is rendered with a single leading tab, but
the replacement also applies to interior four-space runs (including any in
the configuration rendering) and turns deeper 4k-space indentation into k
tabs, rather than leaving non-leading text unaffected. -/
theorem C4_amended (cfg : List Char) :
    DefaultMakefile_str cfg = tabRepl (joinNL (DefaultMakefile_sections cfg)) ∧
    SlurmMakefile_str cfg = tabRepl (joinNL (SlurmMakefile_sections cfg)) ∧
    (∀ r, tabRepl (' ' :: ' ' :: ' ' :: ' ' :: r) = '\t' :: tabRepl r) ∧
    (∀ c r, c ≠ ' ' → tabRepl (' ' :: ' ' :: ' ' :: ' ' :: c :: r) = '\t' :: c :: tabRepl r) ∧
    (∀ c r, c ≠ ' ' → tabRepl (c :: r) = c :: tabRepl r) := by
  refine ⟨joinNL_map_tabRepl (DefaultMakefile_sections cfg),
    joinNL_map_tabRepl (SlurmMakefile_sections cfg), tabRepl_four, ?_, ?_⟩
  · intro c r h
    rw [tabRepl_four, tabRepl_cons c r (ne_space_guard c r h)]
  · intro c r h
    exact tabRepl_cons c r (ne_space_guard c r h)

/-- C4 amended, witness: a four-space-indented line fragment gains a single
leading tab; a non-space-led fragment is emitted unchanged. -/
theorem C4_amended_witness :
    tabRepl (' ' :: ' ' :: ' ' :: ' ' :: 'x' :: []) = '\t' :: 'x' :: [] ∧
    tabRepl ('x' :: ' ' :: []) = 'x' :: ' ' :: [] := by
  have hx : ('x' : Char) ≠ ' ' := by decide
  have h4 := (C4_amended []).2.2.2.1 'x' [] hx
  have h1 := (C4_amended []).2.2.2.2 'x' [' '] hx
  refine ⟨by rw [h4]; rfl, by rw [h1]; rfl⟩

/-- The text both renderers emit before their `default` sections: the three
header lines followed by the rendered configuration block. -/
def commonHeaderPrefix (cfg : List Char) : List Char :=
  tabRepl headerLine1 ++ '\n' :: (tabRepl headerLine2 ++ '\n' ::
    (tabRepl headerLine3 ++ '\n' :: (tabRepl cfg ++ ['\n'])))

set_option maxRecDepth 40000 in
/-- C6 counterexample: the `default` target sections of the two renderers are
not identical — at the concrete empty configuration the batch output lacks
the default renderer's `default: symlinks` section and carries
`default: slurm` instead. -/
theorem C6_counterexample :
    DefaultMakefile_default ≠ SlurmMakefile_default ∧
    hasSegment ("default: symlinks".data) (DefaultMakefile_str []) = true ∧
    hasSegment ("default: symlinks".data) (SlurmMakefile_str []) = false ∧
    hasSegment ("default: slurm".data) (SlurmMakefile_str []) = true := by
  refine ⟨by decide, by decide, by decide, by decide⟩

/-- C6 amended: for every configuration both renderers share the same header
and configuration prefix, the same symlinks section and the same tail
section, and the batch output adds the slurm section; but the `default`
sections differ — the batch `default` target depends on `slurm` where the
local one depends on `symlinks`. -/
theorem C6_amended (cfg : List Char) :
    (∃ t, DefaultMakefile_str cfg =
        commonHeaderPrefix cfg ++ tabRepl DefaultMakefile_default ++ t) ∧
    (∃ t, SlurmMakefile_str cfg =
        commonHeaderPrefix cfg ++ tabRepl SlurmMakefile_default ++ t) ∧
    (∃ s t, DefaultMakefile_str cfg = s ++ tabRepl Makefile_symlinks ++ t) ∧
    (∃ s t, SlurmMakefile_str cfg = s ++ tabRepl Makefile_symlinks ++ t) ∧
    (∃ s, DefaultMakefile_str cfg = s ++ tabRepl Makefile_tail) ∧
    (∃ s, SlurmMakefile_str cfg = s ++ tabRepl Makefile_tail) ∧
    (∃ s t, SlurmMakefile_str cfg = s ++ tabRepl SlurmMakefile_slurm ++ t) ∧
    DefaultMakefile_default ≠ SlurmMakefile_default := by
  refine ⟨⟨'\n' :: (tabRepl Makefile_symlinks ++ '\n' ::
            (tabRepl DefaultMakefile_run ++ '\n' :: tabRepl Makefile_tail)), ?_⟩,
    ⟨'\n' :: (tabRepl Makefile_symlinks ++ '\n' :: (tabRepl SlurmMakefile_slurm ++ '\n' ::
      (tabRepl SlurmMakefile_run ++ '\n' :: tabRepl Makefile_tail))), ?_⟩,
    ⟨commonHeaderPrefix cfg ++ tabRepl DefaultMakefile_default ++ ['\n'],
     '\n' :: (tabRepl DefaultMakefile_run ++ '\n' :: tabRepl Makefile_tail), ?_⟩,
    ⟨commonHeaderPrefix cfg ++ tabRepl SlurmMakefile_default ++ ['\n'],
     '\n' :: (tabRepl SlurmMakefile_slurm ++ '\n' ::
       (tabRepl SlurmMakefile_run ++ '\n' :: tabRepl Makefile_tail)), ?_⟩,
    ⟨commonHeaderPrefix cfg ++ tabRepl DefaultMakefile_default ++ '\n' ::
       (tabRepl Makefile_symlinks ++ '\n' :: (tabRepl DefaultMakefile_run ++ ['\n'])), ?_⟩,
    ⟨commonHeaderPrefix cfg ++ tabRepl SlurmMakefile_default ++ '\n' ::
       (tabRepl Makefile_symlinks ++ '\n' :: (tabRepl SlurmMakefile_slurm ++ '\n' ::
         (tabRepl SlurmMakefile_run ++ ['\n']))), ?_⟩,
    ⟨commonHeaderPrefix cfg ++ tabRepl SlurmMakefile_default ++ '\n' ::
       (tabRepl Makefile_symlinks ++ ['\n']),
     '\n' :: (tabRepl SlurmMakefile_run ++ '\n' :: tabRepl Makefile_tail), ?_⟩,
    by decide⟩ <;>
  simp [DefaultMakefile_str_decomp, SlurmMakefile_str_decomp, commonHeaderPrefix,
    List.append_assoc]

/-- The dependency line of the batch `run` target, verbatim from the source
template (source line 139). -/
def slurmRunDepLine : List Char :=
  "run: $(if ! $(\"$(wildcard $(SLURM_JOB_FILE))\",\"\"), slurm)".data

/-- The emitted text of the batch `run` target after the dependency line. -/
def slurmRunRecipeRest : List Char :=
  List.drop (slurmRunDepLine.length + 2) (tabRepl SlurmMakefile_run)

set_option maxRecDepth 40000 in
/-- C8: every batch output reproduces the `run` target's dependency line
character for character: the questionable shell idiom is preserved, not
rewritten — the tab conversion leaves the line unchanged, and it appears as
a full line of the emitted text for every configuration. -/
theorem C8_run_dep_line_preserved (cfg : List Char) :
    (∃ s t, SlurmMakefile_str cfg = s ++ ('\n' :: slurmRunDepLine ++ '\n' :: t)) ∧
    tabRepl slurmRunDepLine = slurmRunDepLine ∧
    (∃ t, SlurmMakefile_run = '\n' :: slurmRunDepLine ++ '\n' :: t) := by
  have hrun : tabRepl SlurmMakefile_run =
      '\n' :: slurmRunDepLine ++ '\n' :: slurmRunRecipeRest := by decide
  refine ⟨?_, by decide,
    ⟨List.drop (slurmRunDepLine.length + 2) SlurmMakefile_run, by decide⟩⟩
  refine ⟨tabRepl headerLine1 ++ '\n' :: (tabRepl headerLine2 ++ '\n' ::
      (tabRepl headerLine3 ++ '\n' :: (tabRepl cfg ++ '\n' ::
        (tabRepl SlurmMakefile_default ++ '\n' :: (tabRepl Makefile_symlinks ++ '\n' ::
          (tabRepl SlurmMakefile_slurm ++ ['\n'])))))),
    slurmRunRecipeRest ++ '\n' :: tabRepl Makefile_tail, ?_⟩
  rw [SlurmMakefile_str_decomp, hrun]
  simp [List.append_assoc]

/-- Modelled from the spec: the batch-scheduler parameters of a `SlurmConfig`
("account, partition, wall-time, mail notification settings, task count"),
which lives outside this module, given as the values of the make variables
the `slurm` recipe interpolates.  A field that is not set is the empty
string: make expands an unset variable to nothing, and the recipe's
non-emptiness guards then skip its directives. -/
structure SlurmVars where
  account : List Char
  mailUser : List Char
  mailType : List Char
  walltime : List Char
  partition : List Char
  ntasks : List Char
  logFile : List Char
  launcher : List Char
  binary : List Char

/-- The `#SBATCH` directive lines that the shell recipe of the `slurm` target
(source lines 107-134) prints into the batch job file, as a function of the
configuration's variable values: each non-emptiness guard keeps its
directives exactly when the corresponding variable is non-empty, and the
mail-type value defaults to `all` when unset. -/
def slurmSbatchDirectives (v : SlurmVars) : List (List Char) :=
  ["#SBATCH -D .".data]
  ++ (if v.account = [] then [] else ["#SBATCH -A ".data ++ v.account])
  ++ (if v.mailUser = [] then [] else
       ["#SBATCH --mail-user=".data ++ v.mailUser,
        "#SBATCH --mail-type=".data ++
          (if v.mailType = [] then "all".data else v.mailType)])
  ++ ["#SBATCH --output=".data ++ v.logFile,
      "#SBATCH -n ".data ++ v.ntasks]
  ++ (if v.walltime = [] then [] else ["#SBATCH --time=".data ++ v.walltime])
  ++ (if v.partition = [] then [] else ["#SBATCH --partition=".data ++ v.partition])

/-- The complete batch job script written by the `slurm` recipe: shebang,
directives, a blank line, `set -e`, then the launch command. -/
def slurmJobScriptLines (v : SlurmVars) : List (List Char) :=
  "#!/bin/bash --login".data :: slurmSbatchDirectives v
    ++ [[], "set -e".data, v.launcher ++ ' ' :: v.binary]

/-- Number of lines of `ls` that start with `pat`. -/
def countLinesWith (pat : List Char) : List (List Char) → Nat
  | [] => 0
  | l :: ls => (if listStartsWith pat l then 1 else 0) + countLinesWith pat ls

theorem countLinesWith_append (p : List Char) (l1 l2 : List (List Char)) :
    countLinesWith p (l1 ++ l2) = countLinesWith p l1 + countLinesWith p l2 := by
  induction l1 with
  | nil => simp [countLinesWith]
  | cons x xs ih => simp [countLinesWith, ih, Nat.add_assoc]

/-- The mail-user directive key. -/
def mailUserDir : List Char := "#SBATCH --mail-user=".data

/-- The mail-type directive key. -/
def mailTypeDir : List Char := "#SBATCH --mail-type=".data

/-- The wall-time directive key. -/
def timeDir : List Char := "#SBATCH --time=".data
theorem lsw_mu_D :
    listStartsWith mailUserDir ['#', 'S', 'B', 'A', 'T', 'C', 'H', ' ', '-', 'D', ' ', '.'] = false := rfl

theorem lsw_mu_A (s : List Char) :
    listStartsWith mailUserDir ('#' :: 'S' :: 'B' :: 'A' :: 'T' :: 'C' :: 'H' :: ' ' :: '-' :: 'A' :: ' ' :: s) = false := rfl

theorem lsw_mu_mu (s : List Char) :
    listStartsWith mailUserDir ('#' :: 'S' :: 'B' :: 'A' :: 'T' :: 'C' :: 'H' :: ' ' :: '-' :: '-' :: 'm' :: 'a' :: 'i' :: 'l' :: '-' :: 'u' :: 's' :: 'e' :: 'r' :: '=' :: s) = true := rfl

theorem lsw_mu_mt (s : List Char) :
    listStartsWith mailUserDir ('#' :: 'S' :: 'B' :: 'A' :: 'T' :: 'C' :: 'H' :: ' ' :: '-' :: '-' :: 'm' :: 'a' :: 'i' :: 'l' :: '-' :: 't' :: 'y' :: 'p' :: 'e' :: '=' :: s) = false := rfl

theorem lsw_mu_out (s : List Char) :
    listStartsWith mailUserDir ('#' :: 'S' :: 'B' :: 'A' :: 'T' :: 'C' :: 'H' :: ' ' :: '-' :: '-' :: 'o' :: 'u' :: 't' :: 'p' :: 'u' :: 't' :: '=' :: s) = false := rfl

theorem lsw_mu_n (s : List Char) :
    listStartsWith mailUserDir ('#' :: 'S' :: 'B' :: 'A' :: 'T' :: 'C' :: 'H' :: ' ' :: '-' :: 'n' :: ' ' :: s) = false := rfl

theorem lsw_mu_t (s : List Char) :
    listStartsWith mailUserDir ('#' :: 'S' :: 'B' :: 'A' :: 'T' :: 'C' :: 'H' :: ' ' :: '-' :: '-' :: 't' :: 'i' :: 'm' :: 'e' :: '=' :: s) = false := rfl

theorem lsw_mu_p (s : List Char) :
    listStartsWith mailUserDir ('#' :: 'S' :: 'B' :: 'A' :: 'T' :: 'C' :: 'H' :: ' ' :: '-' :: '-' :: 'p' :: 'a' :: 'r' :: 't' :: 'i' :: 't' :: 'i' :: 'o' :: 'n' :: '=' :: s) = false := rfl

theorem lsw_mt_D :
    listStartsWith mailTypeDir ['#', 'S', 'B', 'A', 'T', 'C', 'H', ' ', '-', 'D', ' ', '.'] = false := rfl

theorem lsw_mt_A (s : List Char) :
    listStartsWith mailTypeDir ('#' :: 'S' :: 'B' :: 'A' :: 'T' :: 'C' :: 'H' :: ' ' :: '-' :: 'A' :: ' ' :: s) = false := rfl

theorem lsw_mt_mu (s : List Char) :
    listStartsWith mailTypeDir ('#' :: 'S' :: 'B' :: 'A' :: 'T' :: 'C' :: 'H' :: ' ' :: '-' :: '-' :: 'm' :: 'a' :: 'i' :: 'l' :: '-' :: 'u' :: 's' :: 'e' :: 'r' :: '=' :: s) = false := rfl

theorem lsw_mt_mt (s : List Char) :
    listStartsWith mailTypeDir ('#' :: 'S' :: 'B' :: 'A' :: 'T' :: 'C' :: 'H' :: ' ' :: '-' :: '-' :: 'm' :: 'a' :: 'i' :: 'l' :: '-' :: 't' :: 'y' :: 'p' :: 'e' :: '=' :: s) = true := rfl

theorem lsw_mt_out (s : List Char) :
    listStartsWith mailTypeDir ('#' :: 'S' :: 'B' :: 'A' :: 'T' :: 'C' :: 'H' :: ' ' :: '-' :: '-' :: 'o' :: 'u' :: 't' :: 'p' :: 'u' :: 't' :: '=' :: s) = false := rfl

theorem lsw_mt_n (s : List Char) :
    listStartsWith mailTypeDir ('#' :: 'S' :: 'B' :: 'A' :: 'T' :: 'C' :: 'H' :: ' ' :: '-' :: 'n' :: ' ' :: s) = false := rfl

theorem lsw_mt_t (s : List Char) :
    listStartsWith mailTypeDir ('#' :: 'S' :: 'B' :: 'A' :: 'T' :: 'C' :: 'H' :: ' ' :: '-' :: '-' :: 't' :: 'i' :: 'm' :: 'e' :: '=' :: s) = false := rfl

theorem lsw_mt_p (s : List Char) :
    listStartsWith mailTypeDir ('#' :: 'S' :: 'B' :: 'A' :: 'T' :: 'C' :: 'H' :: ' ' :: '-' :: '-' :: 'p' :: 'a' :: 'r' :: 't' :: 'i' :: 't' :: 'i' :: 'o' :: 'n' :: '=' :: s) = false := rfl

theorem lsw_t_D :
    listStartsWith timeDir ['#', 'S', 'B', 'A', 'T', 'C', 'H', ' ', '-', 'D', ' ', '.'] = false := rfl

theorem lsw_t_A (s : List Char) :
    listStartsWith timeDir ('#' :: 'S' :: 'B' :: 'A' :: 'T' :: 'C' :: 'H' :: ' ' :: '-' :: 'A' :: ' ' :: s) = false := rfl

theorem lsw_t_mu (s : List Char) :
    listStartsWith timeDir ('#' :: 'S' :: 'B' :: 'A' :: 'T' :: 'C' :: 'H' :: ' ' :: '-' :: '-' :: 'm' :: 'a' :: 'i' :: 'l' :: '-' :: 'u' :: 's' :: 'e' :: 'r' :: '=' :: s) = false := rfl

theorem lsw_t_mt (s : List Char) :
    listStartsWith timeDir ('#' :: 'S' :: 'B' :: 'A' :: 'T' :: 'C' :: 'H' :: ' ' :: '-' :: '-' :: 'm' :: 'a' :: 'i' :: 'l' :: '-' :: 't' :: 'y' :: 'p' :: 'e' :: '=' :: s) = false := rfl

theorem lsw_t_out (s : List Char) :
    listStartsWith timeDir ('#' :: 'S' :: 'B' :: 'A' :: 'T' :: 'C' :: 'H' :: ' ' :: '-' :: '-' :: 'o' :: 'u' :: 't' :: 'p' :: 'u' :: 't' :: '=' :: s) = false := rfl

theorem lsw_t_n (s : List Char) :
    listStartsWith timeDir ('#' :: 'S' :: 'B' :: 'A' :: 'T' :: 'C' :: 'H' :: ' ' :: '-' :: 'n' :: ' ' :: s) = false := rfl

theorem lsw_t_t (s : List Char) :
    listStartsWith timeDir ('#' :: 'S' :: 'B' :: 'A' :: 'T' :: 'C' :: 'H' :: ' ' :: '-' :: '-' :: 't' :: 'i' :: 'm' :: 'e' :: '=' :: s) = true := rfl

theorem lsw_t_p (s : List Char) :
    listStartsWith timeDir ('#' :: 'S' :: 'B' :: 'A' :: 'T' :: 'C' :: 'H' :: ' ' :: '-' :: '-' :: 'p' :: 'a' :: 'r' :: 't' :: 'i' :: 't' :: 'i' :: 'o' :: 'n' :: '=' :: s) = false := rfl

/-- C7: in the batch script the `slurm` target emits, no mail directive line
appears when the mail address is unset; exactly one mail-user and one
mail-type directive line appear when it is set; no wall-time directive
appears when the wall-time is unset, and exactly one directive line
containing the configured value appears when it is set. -/
theorem C7_slurm_directive_counts (v : SlurmVars) :
    (v.mailUser = [] →
       countLinesWith mailUserDir (slurmSbatchDirectives v) = 0 ∧
       countLinesWith mailTypeDir (slurmSbatchDirectives v) = 0) ∧
    (v.mailUser ≠ [] →
       countLinesWith mailUserDir (slurmSbatchDirectives v) = 1 ∧
       countLinesWith mailTypeDir (slurmSbatchDirectives v) = 1) ∧
    (v.walltime = [] → countLinesWith timeDir (slurmSbatchDirectives v) = 0) ∧
    (v.walltime ≠ [] →
       countLinesWith timeDir (slurmSbatchDirectives v) = 1 ∧
       (timeDir ++ v.walltime) ∈ slurmSbatchDirectives v) := by
  refine ⟨?_, ?_, ?_, ?_⟩
  · intro hM
    constructor <;>
      simp [slurmSbatchDirectives, countLinesWith_append, countLinesWith, hM,
        lsw_mu_D, lsw_mu_A, lsw_mu_out, lsw_mu_n, lsw_mu_t, lsw_mu_p,
        lsw_mt_D, lsw_mt_A, lsw_mt_out, lsw_mt_n, lsw_mt_t, lsw_mt_p,
        apply_ite (countLinesWith mailUserDir), apply_ite (countLinesWith mailTypeDir)]
  · intro hM
    constructor <;>
      simp [slurmSbatchDirectives, countLinesWith_append, countLinesWith, hM,
        lsw_mu_D, lsw_mu_A, lsw_mu_mu, lsw_mu_mt, lsw_mu_out, lsw_mu_n, lsw_mu_t, lsw_mu_p,
        lsw_mt_D, lsw_mt_A, lsw_mt_mu, lsw_mt_mt, lsw_mt_out, lsw_mt_n, lsw_mt_t, lsw_mt_p,
        apply_ite (countLinesWith mailUserDir), apply_ite (countLinesWith mailTypeDir)]
  · intro hW
    simp [slurmSbatchDirectives, countLinesWith_append, countLinesWith, hW,
      lsw_t_D, lsw_t_A, lsw_t_mu, lsw_t_mt, lsw_t_out, lsw_t_n, lsw_t_p,
      apply_ite (countLinesWith timeDir)]
  · intro hW
    constructor
    · simp [slurmSbatchDirectives, countLinesWith_append, countLinesWith, hW,
        lsw_t_D, lsw_t_A, lsw_t_mu, lsw_t_mt, lsw_t_out, lsw_t_n, lsw_t_t, lsw_t_p,
        apply_ite (countLinesWith timeDir)]
    · have ht : timeDir ++ v.walltime =
          '#' :: 'S' :: 'B' :: 'A' :: 'T' :: 'C' :: 'H' :: ' ' :: '-' :: '-' :: 't' :: 'i' :: 'm' :: 'e' :: '=' :: v.walltime := rfl
      simp [slurmSbatchDirectives, hW, ht]

/-- A batch configuration with a mail address and wall-time `02:00:00`. -/
def slurmVarsMail : SlurmVars :=
  ⟨"nosofs".data, "user@example.com".data, [], "02:00:00".data,
   "compute".data, "16".data, "slurm.log".data,
   "srun".data, "pschism".data⟩

/-- A batch configuration with neither mail address nor wall-time. -/
def slurmVarsBare : SlurmVars :=
  ⟨[], [], [], [], [], "16".data, "slurm.log".data,
   "srun".data, "pschism".data⟩

/-- C7 witness at two concrete batch configurations: with no mail address and
no wall-time every corresponding directive count is zero; with both set, each
count is one and the wall-time line carries `02:00:00`. -/
theorem C7_slurm_directive_counts_witness :
    (countLinesWith mailUserDir (slurmSbatchDirectives slurmVarsBare) = 0 ∧
     countLinesWith mailTypeDir (slurmSbatchDirectives slurmVarsBare) = 0) ∧
    countLinesWith timeDir (slurmSbatchDirectives slurmVarsBare) = 0 ∧
    (countLinesWith mailUserDir (slurmSbatchDirectives slurmVarsMail) = 1 ∧
     countLinesWith mailTypeDir (slurmSbatchDirectives slurmVarsMail) = 1) ∧
    (countLinesWith timeDir (slurmSbatchDirectives slurmVarsMail) = 1 ∧
     (timeDir ++ "02:00:00".data) ∈ slurmSbatchDirectives slurmVarsMail) :=
  ⟨(C7_slurm_directive_counts slurmVarsBare).1 rfl,
   (C7_slurm_directive_counts slurmVarsBare).2.2.1 rfl,
   (C7_slurm_directive_counts slurmVarsMail).2.1 (by decide),
   (C7_slurm_directive_counts slurmVarsMail).2.2.2 (by decide)⟩
